import Mathlib

/-!
# Verification of the taskPages authentication and session subsystem

Shallow embedding of `src/backend/auth/oauth_handler.py`,
`src/backend/auth/security_middleware.py` and
`src/backend/config/security.py`.

Modelling conventions:
* Redis is modelled as functional maps `String → Option (α × Nat)` where the
  `Nat` component is the absolute expiry time of the key (Redis `SETEX k ttl v`
  at time `now` stores expiry `now + ttl`); a key is live at time `now` iff
  `now < expiry`.  Time is `Nat` seconds.
* The Flask cookie session is a record of the optional keys the auth handlers
  touch (`session.pop` becomes a record update to `none`).
* External effects — the random tokens from `secrets.token_urlsafe`, the HTTP
  round trip to Google's token endpoint, and the signature/expiry verdict of
  `google.oauth2.id_token.verify_oauth2_token` — are passed in as parameters.
* Exceptions from the Redis client are modelled by a `storeOk : Bool`
  parameter where the source wraps store access in `try/except`.
-/

namespace TaskPages

/-- Pointwise update of a functional map, used to model Redis writes. -/
def override (m : String → Option α) (k : String) (v : Option α) :
    String → Option α :=
  fun k' => if k' = k then v else m k'

/-- Redis read at time `now`: a key is visible only while `now < expiry`. -/
def liveGet (m : String → Option (α × Nat)) (now : Nat) (k : String) :
    Option (α × Nat) :=
  match m k with
  | some (v, e) => if now < e then some (v, e) else none
  | none => none

@[simp] theorem override_same (m : String → Option α) (k : String) (v : Option α) :
    override m k v k = v := by
  simp [override]

@[simp] theorem override_other (m : String → Option α) (k k' : String)
    (v : Option α) (h : k' ≠ k) : override m k v k' = m k' := by
  simp [override, h]

/-! ## Python string helpers

Small executable models of the Python string operations the source uses,
written over `String.data` so that the kernel can evaluate them. -/

/-- Python `s.endswith(suffix)`. -/
def pyEndsWith (s suffix : String) : Bool :=
  suffix.data.isSuffixOf s.data

/-- Python `s.startswith(prefix_)`. -/
def pyStartsWith (s prefix_ : String) : Bool :=
  prefix_.data.isPrefixOf s.data

/-- Replace every occurrence of a non-empty pattern, as Python
`s.replace(p, r)`; structural recursion on a fuel bounded by the input
length (each step consumes at least one character). -/
def pyReplaceAux (pat rep : List Char) : Nat → List Char → List Char
  | 0, l => l
  | _, [] => []
  | fuel + 1, c :: cs =>
    if pat ≠ [] ∧ pat.isPrefixOf (c :: cs) then
      rep ++ pyReplaceAux pat rep fuel ((c :: cs).drop pat.length)
    else
      c :: pyReplaceAux pat rep fuel cs

/-- Python `s.replace(pat, rep)`. -/
def pyReplace (s pat rep : String) : String :=
  ⟨pyReplaceAux pat.data rep.data s.data.length s.data⟩

/-- Python `s.rstrip('s')`: drop every trailing `'s'`. -/
def pyRstripS (s : String) : String :=
  ⟨(s.data.reverse.dropWhile (· = 's')).reverse⟩

/-- Python `s.split()` restricted to single-space separators (the limit
strings in this code base are of the form `"N per unit"`). -/
def pySplitSpaceAux (cur : List Char) : List Char → List (List Char)
  | [] => [cur.reverse]
  | c :: cs =>
    if c = ' ' then cur.reverse :: pySplitSpaceAux [] cs
    else pySplitSpaceAux (c :: cur) cs

/-- Split a string on single spaces. -/
def pySplitSpace (s : String) : List String :=
  (pySplitSpaceAux [] s.data).map (fun l => ⟨l⟩)

/-- Python `int(s)` for a digit string (the code only parses well-formed
limit strings; non-digit input, on which Python raises, maps to 0 here). -/
def pyToNat (s : String) : Nat :=
  s.data.foldl (fun acc c => acc * 10 + (c.toNat - '0'.toNat)) 0

/-! ## Data model -/

/-- The session payload built by `create_user_session` (timestamps are `Nat`
seconds in place of the source's ISO strings). -/
structure SessionData where
  user_id : String
  email : String
  name : String
  picture : String
  workspace_domain : Option String
  created_at : Nat
  last_activity : Nat
  ip_address : String
  user_agent : String
deriving DecidableEq

/-- The record stored under `auth_token:{t}` and `api_token:{t}`. -/
structure TokenData where
  session_id : String
  email : String
  created_at : Nat
deriving DecidableEq

/-- The Redis key space used by the auth handlers, one map per key prefix
(`taskpages:session:`, `user_sessions:`, `auth_token:`, `api_token:`). -/
structure RedisStore where
  sessions : String → Option (SessionData × Nat)
  userSessions : String → Option (List String × Nat)
  authTokens : String → Option (TokenData × Nat)
  apiTokens : String → Option (TokenData × Nat)

/-- The empty store. -/
def RedisStore.empty : RedisStore :=
  ⟨fun _ => none, fun _ => none, fun _ => none, fun _ => none⟩

/-- The Flask cookie-session keys the auth blueprint reads and writes. -/
structure FlaskSession where
  session_id : Option String
  user_email : Option String
  oauth_state : Option String
  oauth_timestamp : Option Nat
  oauth_nonce : Option String
  next_url : Option String
deriving DecidableEq

/-- A cleared Flask session (`session.clear()`). -/
def FlaskSession.clear : FlaskSession :=
  ⟨none, none, none, none, none, none⟩

/-- Decoded ID-token claims as consumed by `verify_google_token` and
`create_user_session`. -/
structure IdInfo where
  iss : String
  aud : String
  hd : Option String
  email : String
  email_verified : Bool
  nonce : Option String
  sub : String
  name : String
  picture : String
deriving DecidableEq

/-- The configuration values from `SecureConfig` that the auth handlers read. -/
structure AppConfig where
  google_client_id : String
  oauth_require_workspace_domain : Bool
  google_workspace_domain : String
  frontend_url : String
deriving DecidableEq

/-- `PERMANENT_SESSION_LIFETIME = timedelta(hours=24)` in seconds. -/
def PERMANENT_SESSION_LIFETIME : Nat := 86400

/-- Bridge (`auth_token:`) records are stored with `setex(key, 300, ...)`. -/
def AUTH_TOKEN_TTL : Nat := 300

/-! ## CSRF guard (`generate_csrf_token` / `verify_csrf_token`) -/

/-- `verify_csrf_token`: pops `oauth_state` from the Flask session (the pop
happens before any check), then rejects empty/missing values and otherwise
compares with `secrets.compare_digest`. -/
def verify_csrf_token (s : FlaskSession) (token : Option String) :
    Bool × FlaskSession :=
  let stored := s.oauth_state
  let s' := { s with oauth_state := none }
  match stored, token with
  | some st, some t =>
    if st = "" ∨ t = "" then (false, s')
    else (decide (st = t), s')
  | _, _ => (false, s')

/-! ## ID Token Verifier (`verify_google_token`)

`id_token.verify_oauth2_token` (signature, expiry with 10 s skew, and basic
shape) runs outside the repository; its verdict enters as
`libResult : Option IdInfo`, `none` meaning the library raised (covered by the
surrounding `try/except`, which returns `None`). -/

/-- `verify_google_token`: issuer, audience, workspace-domain (hosted-domain
claim and email suffix), and email-verified checks, each returning `none`
(the source's `return None`) on failure. -/
def verify_google_token (libResult : Option IdInfo) (cfg : AppConfig) :
    Option IdInfo :=
  match libResult with
  | none => none
  | some idinfo =>
    if idinfo.iss ∉ ["accounts.google.com", "https://accounts.google.com"] then
      none
    else if idinfo.aud ≠ cfg.google_client_id then
      none
    else if cfg.oauth_require_workspace_domain ∧
        idinfo.hd ≠ some cfg.google_workspace_domain then
      none
    else if cfg.oauth_require_workspace_domain ∧
        ¬ pyEndsWith idinfo.email ("@" ++ cfg.google_workspace_domain) then
      none
    else if ¬ idinfo.email_verified then
      none
    else
      some idinfo

/-! ## Session store (`create_user_session`, `get_user_session`, `logout`,
`logout_all`) — the Redis branch of each handler. -/

/-- Redis members of a live set key (`SMEMBERS` of an expired key is empty). -/
def smembers (s : RedisStore) (now : Nat) (email : String) : List String :=
  match liveGet s.userSessions now ("user_sessions:" ++ email) with
  | some (ids, _) => ids
  | none => []

/-- `create_user_session`, Redis branch: one pipeline doing
`SETEX session_key expiry data`, `SADD user_sessions:email session_id`,
`EXPIRE user_sessions:email expiry`; also sets the cookie's `session_id` and
`user_email`.  The random `session_id` is a parameter. -/
def create_user_session (s : RedisStore) (fs : FlaskSession) (now : Nat)
    (session_id : String) (user_info : IdInfo) (remote_addr user_agent : String) :
    RedisStore × FlaskSession :=
  let session_data : SessionData :=
    { user_id := user_info.sub
      email := user_info.email
      name := user_info.name
      picture := user_info.picture
      workspace_domain := user_info.hd
      created_at := now
      last_activity := now
      ip_address := remote_addr
      user_agent := user_agent }
  let expiry := PERMANENT_SESSION_LIFETIME
  let s' : RedisStore :=
    { s with
      sessions := override s.sessions session_id (some (session_data, now + expiry))
      userSessions :=
        override s.userSessions ("user_sessions:" ++ user_info.email)
          (some ((smembers s now user_info.email).insert session_id, now + expiry)) }
  (s', { fs with session_id := some session_id, user_email := some user_info.email })

/-- `get_user_session`, Redis branch: read the record keyed by the cookie's
`session_id`; on a miss clear the Flask session; on a hit bump
`last_activity` and `SETEX` the record again (TTL refresh — the
`user_sessions:` index is not touched). -/
def get_user_session (s : RedisStore) (fs : FlaskSession) (now : Nat) :
    Option SessionData × RedisStore × FlaskSession :=
  match fs.session_id with
  | none => (none, s, fs)
  | some session_id =>
    match liveGet s.sessions now session_id with
    | none => (none, s, FlaskSession.clear)
    | some (data, _) =>
      let data' := { data with last_activity := now }
      let m := override s.sessions session_id
        (some (data', now + PERMANENT_SESSION_LIFETIME))
      (some data', { s with sessions := m }, fs)

/-- `logout`: delete the session record keyed by the cookie's `session_id`
and `SREM` it from the cookie's `user_email` index, then clear the cookie. -/
def logout (s : RedisStore) (fs : FlaskSession) (now : Nat) :
    RedisStore × FlaskSession :=
  let s' :=
    match fs.session_id with
    | none => s
    | some session_id =>
      let s1 : RedisStore :=
        { s with sessions := override s.sessions session_id none }
      match fs.user_email with
      | none => s1
      | some email =>
        let key := "user_sessions:" ++ email
        match liveGet s1.userSessions now key with
        | none => s1
        | some (ids, e) =>
          let m := override s1.userSessions key
            (some (ids.filter (· ≠ session_id), e))
          { s1 with userSessions := m }
  (s', FlaskSession.clear)

/-- `logout_all`: `SMEMBERS` of the caller's index, then one pipeline deleting
every listed session record and the index itself, then clear the cookie. -/
def logout_all (s : RedisStore) (now : Nat) (email : String) :
    RedisStore × FlaskSession :=
  let ids := smembers s now email
  let s' : RedisStore :=
    { s with
      sessions := fun k => if k ∈ ids then none else s.sessions k
      userSessions := override s.userSessions ("user_sessions:" ++ email) none }
  (s', FlaskSession.clear)

/-! ## Token exchange service (`validate_auth_token`, `exchange_token`,
`validate_api_token`) — Redis branches. -/

/-- `validate_auth_token`: pure read of `auth_token:{t}` resolved through to
the live session record; no store writes. -/
def validate_auth_token (s : RedisStore) (now : Nat) (token : String) :
    Option SessionData :=
  if token = "" then none
  else
    match liveGet s.authTokens now ("auth_token:" ++ token) with
    | none => none
    | some (td, _) =>
      match liveGet s.sessions now td.session_id with
      | none => none
      | some (data, _) => some data

/-- `validate_api_token`: read `api_token:{t}`; if the backing session record
is live, refresh the API token's TTL (`EXPIRE`) and return the session data;
otherwise return `none` with no writes. -/
def validate_api_token (s : RedisStore) (now : Nat) (token : String) :
    Option SessionData × RedisStore :=
  if token = "" then (none, s)
  else
    match liveGet s.apiTokens now ("api_token:" ++ token) with
    | none => (none, s)
    | some (td, _) =>
      match liveGet s.sessions now td.session_id with
      | none => (none, s)
      | some (data, _) =>
        let m := override s.apiTokens ("api_token:" ++ token)
          (some (td, now + PERMANENT_SESSION_LIFETIME))
        (some data, { s with apiTokens := m })

/-- Outcome of `POST /auth/exchange-token`. -/
structure ExchangeOutcome where
  status : Nat
  api_token : Option String
  store : RedisStore

/-- `exchange_token`, Redis branch: body token → `auth_token:{t}` lookup (401
on miss) → session lookup (401 on miss, bridge kept) → mint `api_token:{new}`
with session-lifetime TTL, delete the bridge record, 200.  The random new API
token is the parameter `newApiToken`. -/
def exchange_token (s : RedisStore) (now : Nat) (body_token : Option String)
    (newApiToken : String) : ExchangeOutcome :=
  match body_token with
  | none => ⟨400, none, s⟩
  | some t =>
    if t = "" then ⟨400, none, s⟩
    else
      match liveGet s.authTokens now ("auth_token:" ++ t) with
      | none => ⟨401, none, s⟩
      | some (td, _) =>
        match liveGet s.sessions now td.session_id with
        | none => ⟨401, none, s⟩
        | some (user_data, _) =>
          let expiry := PERMANENT_SESSION_LIFETIME
          let s' : RedisStore :=
            { s with
              apiTokens := override s.apiTokens ("api_token:" ++ newApiToken)
                (some (⟨td.session_id, user_data.email, now⟩, now + expiry))
              authTokens := override s.authTokens ("auth_token:" ++ t) none }
          ⟨200, some newApiToken, s'⟩

/-- `GET /auth/status`: a `Bearer` header is tried against `validate_api_token`
then `validate_auth_token`; on failure (or no header) fall back to the cookie
session via `get_user_session`.  Returns (authenticated, store, cookie). -/
def auth_status (s : RedisStore) (fs : FlaskSession) (now : Nat)
    (authHeader : String) : Bool × RedisStore × FlaskSession :=
  let cookiePath : Bool × RedisStore × FlaskSession :=
    let (res, s', fs') := get_user_session s fs now
    (res.isSome, s', fs')
  if pyStartsWith authHeader "Bearer " then
    let token := pyReplace authHeader "Bearer " ""
    let (apiRes, s1) := validate_api_token s now token
    match apiRes with
    | some _ => (true, s1, fs)
    | none =>
      match validate_auth_token s1 now token with
      | some _ => (true, s1, fs)
      | none =>
        let (res, s', fs') := get_user_session s1 fs now
        (res.isSome, s', fs')
  else cookiePath

/-! ## OAuth flow controller (`login` / `callback`) -/

/-- `login`: store a fresh CSRF state, the flow timestamp and a fresh nonce in
the cookie session (the random values are parameters), keeping any previously
stored `next_url` handling aside (the referrer branch is modelled by the
caller choosing `fs.next_url`). -/
def login (fs : FlaskSession) (now : Nat) (state nonce : String) : FlaskSession :=
  { fs with
    oauth_state := some state
    oauth_timestamp := some now
    oauth_nonce := some nonce }

/-- The callback's replay-timeout test: a stored `oauth_timestamp` older than
10 minutes (600 s); a missing timestamp skips the check, and `datetime`
subtraction that would be negative in Python is `0` under `Nat` truncation,
failing `> 600` in both models. -/
def oauthTimedOut (ts : Option Nat) (now : Nat) : Bool :=
  match ts with
  | some t => decide (now - t > 600)
  | none => false

/-- Outcome of `GET /auth/callback`. -/
structure CallbackOutcome where
  status : Nat
  fsession : FlaskSession
  store : RedisStore
  redirectTo : Option String

/-- The `callback` handler body after the `error` early return: CSRF check,
replay-timeout check, code exchange, ID-token verification, nonce check,
session creation and bridge-token minting. -/
def callback_no_error (cfg : AppConfig) (s : RedisStore) (fs : FlaskSession)
    (now : Nat) (state code : Option String)
    (tokenExchange : Option (Option String)) (libVerify : Option IdInfo)
    (newSessionId newAuthToken : String) (remote_addr user_agent : String) :
    CallbackOutcome :=
  let (csrfOk, fs1) := verify_csrf_token fs state
  if ¬ csrfOk then ⟨403, fs1, s, none⟩
  else
      -- `session.pop('oauth_timestamp', None)` and the 10-minute check
      let ts := fs1.oauth_timestamp
      let fs2 := { fs1 with oauth_timestamp := none }
      if oauthTimedOut ts now then ⟨403, fs2, s, none⟩
      else
        match code with
        | none => ⟨400, fs2, s, none⟩
        | some c =>
          if c = "" then ⟨400, fs2, s, none⟩
          else
            match tokenExchange with
            | none => ⟨500, fs2, s, none⟩
            | some idTokenStr =>
              match idTokenStr with
              | none => ⟨400, fs2, s, none⟩
              | some its =>
                if its = "" then ⟨400, fs2, s, none⟩
                else
                  match verify_google_token libVerify cfg with
                  | none => ⟨403, fs2, s, none⟩
                  | some user_info =>
                    -- nonce pop and check
                    let expected := fs2.oauth_nonce
                    let fs3 := { fs2 with oauth_nonce := none }
                    match expected with
                    | none => ⟨403, fs3, s, none⟩
                    | some en =>
                      if en = "" ∨ user_info.nonce ≠ some en then ⟨403, fs3, s, none⟩
                      else
                        let (s1, fs4) := create_user_session s fs3 now
                          newSessionId user_info remote_addr user_agent
                        let m := override s1.authTokens
                          ("auth_token:" ++ newAuthToken)
                          (some (⟨newSessionId, user_info.email, now⟩,
                            now + AUTH_TOKEN_TTL))
                        let s2 : RedisStore := { s1 with authTokens := m }
                        let nu := fs4.next_url
                        let fs5 := { fs4 with next_url := none }
                        let url :=
                          match nu with
                          | some u =>
                            if pyStartsWith u "/" ∨ pyStartsWith u cfg.frontend_url then
                              u ++ "?auth=success&token=" ++ newAuthToken
                            else
                              cfg.frontend_url ++ "?auth=success&token=" ++ newAuthToken
                          | none =>
                            cfg.frontend_url ++ "?auth=success&token=" ++ newAuthToken
                        ⟨302, fs5, s2, some url⟩

/-- `callback`: the full handler.  External effects enter as parameters:
`tokenExchange` is the result of the POST to Google's token endpoint (`none`
for a `RequestException`, otherwise the optional `id_token` field of the JSON
body), `libVerify` is the verdict of `id_token.verify_oauth2_token` on that
ID token, and `newSessionId` / `newAuthToken` are the random values from
`secrets.token_urlsafe(32)`. -/
def callback (cfg : AppConfig) (s : RedisStore) (fs : FlaskSession) (now : Nat)
    (error state code : Option String)
    (tokenExchange : Option (Option String)) (libVerify : Option IdInfo)
    (newSessionId newAuthToken : String) (remote_addr user_agent : String) :
    CallbackOutcome :=
  -- `if error:` — Python truthiness: present and non-empty
  match error with
  | some e =>
    if e = "" then
      callback_no_error cfg s fs now state code tokenExchange libVerify
        newSessionId newAuthToken remote_addr user_agent
    else ⟨400, fs, s, none⟩
  | none =>
    callback_no_error cfg s fs now state code tokenExchange libVerify
      newSessionId newAuthToken remote_addr user_agent

/-! ## Rate limiter (`RateLimiter._parse_limit` / `check_rate_limit`) -/

/-- Fixed-window counters: `rate_limit:{key} ↦ (count, expiry)`. -/
structure CounterStore where
  counters : String → Option (Nat × Nat)

/-- The empty counter store. -/
def CounterStore.empty : CounterStore := ⟨fun _ => none⟩

/-- `RateLimiter._parse_limit`: `"100 per hour" ↦ (100, 3600)`; the unit is
`parts[2]` with trailing `'s'` stripped, unknown units default to 3600. -/
def parse_limit (limit_string : String) : Nat × Nat :=
  let parts := pySplitSpace limit_string
  let count := pyToNat (parts.headD "")
  let period := pyRstripS (parts.getD 2 "")
  let seconds :=
    if period = "second" then 1
    else if period = "minute" then 60
    else if period = "hour" then 3600
    else if period = "day" then 86400
    else 3600
  (count, seconds)

/-- The limiter's default limit, `RateLimiter(redis_client, '100 per hour')`. -/
def default_limit : Nat × Nat := parse_limit "100 per hour"

/-- `RateLimiter.check_rate_limit`: pipeline `INCR` + `EXPIRE period` (an
absent or expired counter restarts at 1; `EXPIRE` resets the window on every
call), then compare the post-increment count with the limit.  `storeOk =
false` models the Redis client raising, caught by the `try/except` that
returns `True` (fail open). -/
def check_rate_limit (s : CounterStore) (now : Nat) (key : String)
    (limit : Option String) (storeOk : Bool) : Bool × CounterStore :=
  let lim := match limit with
    | none => default_limit
    | some l => parse_limit l
  let count := lim.1
  let period := lim.2
  let rkey := "rate_limit:" ++ key
  if storeOk then
    let c :=
      match liveGet s.counters now rkey with
      | some (c, _) => c
      | none => 0
    let c' := c + 1
    let s' : CounterStore := ⟨override s.counters rkey (some (c', now + period))⟩
    (decide (c' ≤ count), s')
  else
    (true, s)

/-! ## Session-store operation traces (for the store/index invariant)

A trace interleaves the four session-store operations with time advance
(`tick`), which is how TTL expiry manifests: nothing else removes a key. -/

/-- One step of a session-store trace. -/
inductive SessionOp where
  | create (session_id : String) (user_info : IdInfo)
      (remote_addr user_agent : String)
  | get (session_id : String)
  | logoutOp (session_id email : String)
  | logoutAllOp (email : String)
  | tick (dt : Nat)

/-- Apply one operation: the cookie-session inputs of `get_user_session` and
`logout` are reconstructed from the operation's fields (the cookie holds the
`session_id` and `user_email` that were set at creation time). -/
def applyOp (s : RedisStore) (now : Nat) : SessionOp → RedisStore × Nat
  | .create sid info ra ua =>
    ((create_user_session s FlaskSession.clear now sid info ra ua).1, now)
  | .get sid =>
    ((get_user_session s { FlaskSession.clear with session_id := some sid } now).2.1, now)
  | .logoutOp sid email =>
    ((logout s { FlaskSession.clear with
        session_id := some sid, user_email := some email } now).1, now)
  | .logoutAllOp email => ((logout_all s now email).1, now)
  | .tick dt => (s, now + dt)

/-- Run a trace from a store and a clock. -/
def runOps (s : RedisStore) (now : Nat) : List SessionOp → RedisStore × Nat
  | [] => (s, now)
  | op :: rest =>
    let (s', now') := applyOp s now op
    runOps s' now' rest

/-- The claimed store/index invariant: a live session record with id `sid`
for `email` exists iff `sid` is a member of the live `user_sessions:{email}`
set. -/
def SessionIndexInv (s : RedisStore) (now : Nat) : Prop :=
  ∀ sid email,
    (∃ d e, liveGet s.sessions now sid = some (d, e) ∧ d.email = email)
    ↔ (∃ ids e, liveGet s.userSessions now ("user_sessions:" ++ email) = some (ids, e)
        ∧ sid ∈ ids)

/-- `true` iff a trace contains no time advance. -/
def noTick : List SessionOp → Bool
  | [] => true
  | .tick _ :: _ => false
  | _ :: rest => noTick rest

/-- Trace well-formedness: each created `session_id` is fresh (the source
draws it from `secrets.token_urlsafe(32)`) and each `logout` carries the
`user_email` that the cookie received at creation, i.e. the one stored in the
session record. -/
def wfOps (s : RedisStore) (now : Nat) : List SessionOp → Bool
  | [] => true
  | op :: rest =>
    let ok :=
      match op with
      | .create sid _ _ _ => liveGet s.sessions now sid = none
      | .logoutOp sid email =>
        match liveGet s.sessions now sid with
        | some (d, _) => d.email = email
        | none => true
      | _ => true
    let (s', now') := applyOp s now op
    ok && wfOps s' now' rest

/-! ## General lemmas -/

theorem liveGet_override_live (m : String → Option (α × Nat)) (k : String)
    (v : α) (e now : Nat) (h : now < e) :
    liveGet (override m k (some (v, e))) now k = some (v, e) := by
  simp [liveGet, override, h]

theorem liveGet_override_dead (m : String → Option (α × Nat)) (k : String)
    (v : α) (e now : Nat) (h : e ≤ now) :
    liveGet (override m k (some (v, e))) now k = none := by
  simp [liveGet, override]
  omega

theorem liveGet_override_erase (m : String → Option (α × Nat)) (k : String)
    (now : Nat) : liveGet (override m k none) now k = none := by
  simp [liveGet, override]

theorem liveGet_override_other (m : String → Option (α × Nat)) (k k' : String)
    (v : Option (α × Nat)) (now : Nat) (h : k' ≠ k) :
    liveGet (override m k v) now k' = liveGet m now k' := by
  simp [liveGet, override, h]

theorem string_append_left_cancel {p a b : String} (h : p ++ a = p ++ b) :
    a = b := by
  have h2 := congrArg String.data h
  simp [String.data_append] at h2
  exact String.ext h2

/-- `verify_csrf_token` always pops `oauth_state`, succeed or fail. -/
theorem verify_csrf_token_snd (fs : FlaskSession) (t : Option String) :
    (verify_csrf_token fs t).2 = { fs with oauth_state := none } := by
  unfold verify_csrf_token
  cases fs.oauth_state <;> cases t <;> simp
  split <;> rfl

/-- `verify_csrf_token` succeeds on a matching non-empty stored state. -/
theorem verify_csrf_token_pass (fs : FlaskSession) (st : String)
    (h1 : fs.oauth_state = some st) (h2 : st ≠ "") :
    (verify_csrf_token fs (some st)).1 = true := by
  unfold verify_csrf_token
  simp [h1, h2]

/-- `verify_csrf_token` fails when no state is stored. -/
theorem verify_csrf_token_fail (fs : FlaskSession) (t : Option String)
    (h : fs.oauth_state = none) : (verify_csrf_token fs t).1 = false := by
  unfold verify_csrf_token
  cases t <;> simp [h]

/-! ## C8 — rate limiter fails open -/

/-- C8: for every key and limit, if the store raises during the
increment-and-expire pipeline (`storeOk = false`), `check_rate_limit`
returns `true` and leaves the counters untouched — the request is allowed
(fail open) rather than rejected. -/
theorem c8_rate_limiter_fails_open (s : CounterStore) (now : Nat)
    (key : String) (limit : Option String) :
    check_rate_limit s now key limit false = (true, s) := rfl

/-! ## C4 — API token with a destroyed backing session resolves to absent -/

/-- C4: for an API token whose own record is still live, if the backing
session record is absent from the store, `validate_api_token` returns `none`
and performs no store writes — never stale session data — even though the
token's own TTL has not expired. -/
theorem c4_api_token_dead_session_absent (s : RedisStore) (now : Nat)
    (tok : String) (td : TokenData) (e : Nat)
    (htok : liveGet s.apiTokens now ("api_token:" ++ tok) = some (td, e))
    (hsess : liveGet s.sessions now td.session_id = none) :
    validate_api_token s now tok = (none, s) := by
  unfold validate_api_token
  by_cases h : tok = "" <;> simp [h, htok, hsess]

/-- Sample token data for the C4 witness. -/
def tdC4 : TokenData := ⟨"sid1", "alice@corp.example", 0⟩

/-- A store holding a live API token whose backing session is gone. -/
def storeC4 : RedisStore :=
  { RedisStore.empty with
    apiTokens := override (fun _ => none) "api_token:T" (some (tdC4, 100)) }

theorem c4_api_token_dead_session_absent_witness :
    liveGet storeC4.apiTokens 0 ("api_token:" ++ "T") = some (tdC4, 100) ∧
    liveGet storeC4.sessions 0 tdC4.session_id = none ∧
    validate_api_token storeC4 0 "T" = (none, storeC4) :=
  ⟨by decide, by decide,
   c4_api_token_dead_session_absent storeC4 0 "T" tdC4 100 (by decide) (by decide)⟩

/-! ## C3 — bridge tokens are single use -/

/-- C3: a live bridge token backed by a live session exchanges exactly once:
the first `POST /auth/exchange-token` returns 200 with the freshly minted API
token (now live in the store) and deletes the bridge record, and a second
exchange of the same token — at any later time, with any fresh token value —
returns 401. -/
theorem c3_bridge_token_single_use (s : RedisStore) (now now₂ : Nat)
    (t newTok newTok₂ : String) (td : TokenData) (e : Nat)
    (data : SessionData) (e₂ : Nat)
    (ht : t ≠ "")
    (htok : liveGet s.authTokens now ("auth_token:" ++ t) = some (td, e))
    (hsess : liveGet s.sessions now td.session_id = some (data, e₂)) :
    (exchange_token s now (some t) newTok).status = 200 ∧
    (exchange_token s now (some t) newTok).api_token = some newTok ∧
    (exchange_token s now (some t) newTok).store.authTokens
      ("auth_token:" ++ t) = none ∧
    (exchange_token s now (some t) newTok).store.apiTokens
      ("api_token:" ++ newTok) =
      some (⟨td.session_id, data.email, now⟩, now + PERMANENT_SESSION_LIFETIME) ∧
    (exchange_token (exchange_token s now (some t) newTok).store now₂
      (some t) newTok₂).status = 401 := by
  unfold exchange_token
  simp only [ht, htok, hsess]
  refine ⟨rfl, rfl, by simp, by simp, ?_⟩
  simp [ht, liveGet_override_erase, liveGet]

/-- Session payload for witnesses. -/
def sdW : SessionData :=
  ⟨"sub1", "alice@corp.example", "Alice", "pic", some "corp.example", 0, 0,
   "127.0.0.1", "UA"⟩

/-- Bridge record for the C3/C10 witnesses. -/
def tdW : TokenData := ⟨"sid1", "alice@corp.example", 0⟩

/-- A store holding a live bridge token backed by a live session. -/
def storeC3 : RedisStore :=
  { RedisStore.empty with
    authTokens := override (fun _ => none) "auth_token:T" (some (tdW, 300))
    sessions := override (fun _ => none) "sid1" (some (sdW, 86400)) }

theorem c3_bridge_token_single_use_witness :
    ("T" : String) ≠ "" ∧
    liveGet storeC3.authTokens 0 ("auth_token:" ++ "T") = some (tdW, 300) ∧
    liveGet storeC3.sessions 0 tdW.session_id = some (sdW, 86400) ∧
    ((exchange_token storeC3 0 (some "T") "A").status = 200 ∧
     (exchange_token storeC3 0 (some "T") "A").api_token = some "A" ∧
     (exchange_token storeC3 0 (some "T") "A").store.authTokens
       ("auth_token:" ++ "T") = none ∧
     (exchange_token storeC3 0 (some "T") "A").store.apiTokens
       ("api_token:" ++ "A") =
       some (⟨tdW.session_id, sdW.email, 0⟩, 0 + PERMANENT_SESSION_LIFETIME) ∧
     (exchange_token (exchange_token storeC3 0 (some "T") "A").store 1
       (some "T") "B").status = 401) :=
  ⟨by decide, by decide, by decide,
   c3_bridge_token_single_use storeC3 0 1 "T" "A" "B" tdW 300 sdW 86400
     (by decide) (by decide) (by decide)⟩

/-! ## C5 — workspace-domain restriction -/

/-- C5: in workspace-restricted mode, a token that passes the signature,
expiry, issuer and audience checks is still rejected whenever its
hosted-domain claim differs from the configured domain or its email does not
end with `@<domain>`; acceptance requires both checks to agree. -/
theorem c5_workspace_domain_restriction (info : IdInfo) (cfg : AppConfig)
    (hreq : cfg.oauth_require_workspace_domain = true)
    (hiss : info.iss = "accounts.google.com" ∨
      info.iss = "https://accounts.google.com")
    (haud : info.aud = cfg.google_client_id) :
    (info.hd ≠ some cfg.google_workspace_domain ∨
      pyEndsWith info.email ("@" ++ cfg.google_workspace_domain) = false →
        verify_google_token (some info) cfg = none) ∧
    (∀ out, verify_google_token (some info) cfg = some out →
      info.hd = some cfg.google_workspace_domain ∧
      pyEndsWith info.email ("@" ++ cfg.google_workspace_domain) = true) := by
  unfold verify_google_token
  constructor
  · rintro (hhd | hmail)
    · simp [hreq, hhd]
    · by_cases hhd : info.hd = some cfg.google_workspace_domain <;>
        simp [hreq, hhd, hmail]
  · intro out h
    by_cases hhd : info.hd = some cfg.google_workspace_domain <;>
      by_cases hmail : pyEndsWith info.email
        ("@" ++ cfg.google_workspace_domain) = true <;>
      simp_all [hreq]

/-- Config for the C5/C6 witnesses: restricted to `corp.example`. -/
def cfgW : AppConfig := ⟨"cid", true, "corp.example", "https://front"⟩

/-- A claim set that passes issuer/audience but carries a foreign
hosted-domain claim. -/
def infoBadHd : IdInfo :=
  ⟨"accounts.google.com", "cid", some "other.example", "a@other.example",
   true, some "n", "sub1", "A", "p"⟩

theorem c5_workspace_domain_restriction_witness :
    cfgW.oauth_require_workspace_domain = true ∧
    (infoBadHd.iss = "accounts.google.com" ∨
      infoBadHd.iss = "https://accounts.google.com") ∧
    infoBadHd.aud = cfgW.google_client_id ∧
    ((infoBadHd.hd ≠ some cfgW.google_workspace_domain ∨
       pyEndsWith infoBadHd.email ("@" ++ cfgW.google_workspace_domain) = false →
         verify_google_token (some infoBadHd) cfgW = none) ∧
     (∀ out, verify_google_token (some infoBadHd) cfgW = some out →
       infoBadHd.hd = some cfgW.google_workspace_domain ∧
       pyEndsWith infoBadHd.email ("@" ++ cfgW.google_workspace_domain) = true)) :=
  ⟨by decide, by decide, by decide,
   c5_workspace_domain_restriction infoBadHd cfgW (by decide)
     (by decide) (by decide)⟩

/-! ## C6 — failure outcomes of the verifier are not typed -/

/-- A claim set failing only the issuer check. -/
def infoBadIssuer : IdInfo :=
  ⟨"https://evil.example", "cid", some "corp.example", "a@corp.example",
   true, some "n", "sub1", "A", "p"⟩

/-- A claim set failing only the audience check. -/
def infoBadAudience : IdInfo :=
  ⟨"accounts.google.com", "other", some "corp.example", "a@corp.example",
   true, some "n", "sub1", "A", "p"⟩

/-- C6 counterexample: a bad-issuer failure and a bad-audience failure
produce the *same* outcome (`none`) — the verifier's return value carries no
reason code distinguishing the failure classes; reasons go only to the log. -/
theorem c6_no_reason_code_counterexample :
    verify_google_token (some infoBadIssuer) cfgW =
      verify_google_token (some infoBadAudience) cfgW ∧
    verify_google_token (some infoBadIssuer) cfgW = none := by
  constructor <;> decide

/-- C6 (amended): every failing validation path returns the single untyped
absent outcome (`None`), and the verifier never returns a partially-trusted
identity — on success it returns the full decoded claim set unchanged,
otherwise nothing. -/
theorem c6_all_or_nothing (r : Option IdInfo) (cfg : AppConfig) :
    verify_google_token r cfg = none ∨ verify_google_token r cfg = r := by
  cases r with
  | none => exact Or.inl rfl
  | some info =>
    unfold verify_google_token
    simp only []
    split_ifs <;> simp

/-! ## C10 — `/auth/status` does not consume bridge tokens -/

/-- C10: presenting a live, unexchanged bridge token (backed by a live
session) as `Authorization: Bearer` to `GET /auth/status` answers
authenticated and returns the store and cookie session *unchanged* — the
Bearer fallback `validate_auth_token` performs no deletion — so the same
token authenticates `/auth/status` any number of times within its TTL and is
still redeemable at `POST /auth/exchange-token` (which returns 200);
only the exchange endpoint deletes it. -/
theorem c10_auth_status_keeps_bridge_token (s : RedisStore) (fs : FlaskSession)
    (now : Nat) (header tok newTok : String) (td : TokenData) (e : Nat)
    (data : SessionData) (e₂ : Nat)
    (hhdr1 : pyStartsWith header "Bearer " = true)
    (hhdr2 : pyReplace header "Bearer " "" = tok)
    (htok : tok ≠ "")
    (hauth : liveGet s.authTokens now ("auth_token:" ++ tok) = some (td, e))
    (hapi : liveGet s.apiTokens now ("api_token:" ++ tok) = none)
    (hsess : liveGet s.sessions now td.session_id = some (data, e₂)) :
    auth_status s fs now header = (true, s, fs) ∧
    (exchange_token s now (some tok) newTok).status = 200 := by
  have hapiv : validate_api_token s now tok = (none, s) := by
    unfold validate_api_token
    simp [htok, hapi]
  have hauthv : validate_auth_token s now tok = some data := by
    unfold validate_auth_token
    simp [htok, hauth, hsess]
  constructor
  · unfold auth_status
    simp [hhdr1, hhdr2, hapiv, hauthv]
  · unfold exchange_token
    simp [htok, hauth, hsess]

/-- Store for the C10 witness: live bridge token, live session, no API
token. -/
def storeC10 : RedisStore := storeC3

theorem c10_auth_status_keeps_bridge_token_witness :
    pyStartsWith "Bearer T" "Bearer " = true ∧
    pyReplace "Bearer T" "Bearer " "" = "T" ∧
    ("T" : String) ≠ "" ∧
    liveGet storeC10.authTokens 0 ("auth_token:" ++ "T") = some (tdW, 300) ∧
    liveGet storeC10.apiTokens 0 ("api_token:" ++ "T") = none ∧
    liveGet storeC10.sessions 0 tdW.session_id = some (sdW, 86400) ∧
    (auth_status storeC10 FlaskSession.clear 0 "Bearer T" =
      (true, storeC10, FlaskSession.clear) ∧
     (exchange_token storeC10 0 (some "T") "A").status = 200) :=
  ⟨by decide, by decide, by decide, by decide, by decide, by decide,
   c10_auth_status_keeps_bridge_token storeC10 FlaskSession.clear 0
     "Bearer T" "T" "A" tdW 300 sdW 86400 (by decide) (by decide) (by decide)
     (by decide) (by decide) (by decide)⟩

/-! ## Callback session-state lemmas (for C1 and C9) -/

/-- Whatever else happens, a callback that reaches the CSRF check leaves no
`oauth_state` in the cookie session: `verify_csrf_token` pops it and no later
step restores it. -/
theorem callback_no_error_oauth_state (cfg : AppConfig) (s : RedisStore)
    (fs : FlaskSession) (now : Nat) (state code : Option String)
    (tex : Option (Option String)) (lib : Option IdInfo)
    (sid tok ra ua : String) :
    (callback_no_error cfg s fs now state code tex lib sid tok
      ra ua).fsession.oauth_state = none := by
  unfold callback_no_error
  rcases hv : verify_csrf_token fs state with ⟨b, fs1⟩
  have h1 : fs1.oauth_state = none := by
    have h := verify_csrf_token_snd fs state
    rw [hv] at h
    simp only [] at h
    rw [h]
  cases b <;>
    · simp only [create_user_session]
      repeat' split
      all_goals simp_all

/-- A callback on a cookie session with no stored `oauth_state` (and no
`error` argument) is rejected with 403 at the CSRF check, and still leaves no
`oauth_state` behind. -/
theorem callback_no_state_403 (cfg : AppConfig) (s : RedisStore)
    (fs : FlaskSession) (now : Nat) (state code : Option String)
    (tex : Option (Option String)) (lib : Option IdInfo)
    (sid tok ra ua : String) (h : fs.oauth_state = none) :
    (callback cfg s fs now none state code tex lib sid tok ra ua).status = 403 ∧
    (callback cfg s fs now none state code tex lib sid tok
      ra ua).fsession.oauth_state = none := by
  refine ⟨?_, ?_⟩
  · show (callback_no_error cfg s fs now state code tex lib sid tok ra ua).status = 403
    have hfail := verify_csrf_token_fail fs state h
    unfold callback_no_error
    rcases hv : verify_csrf_token fs state with ⟨b, fs1⟩
    rw [hv] at hfail
    simp only [] at hfail
    simp [hfail]
  · exact callback_no_error_oauth_state cfg s fs now state code tex lib sid tok ra ua

/-! ## C1 — a verified state value cannot be replayed -/

/-- C1: once CSRF verification has succeeded for a state value during a
callback (valid stored `oauth_state`, matching presented `state`), the cookie
session holds no `oauth_state` afterwards, and every later callback
presenting that same state value — immediately or after any number of further
attempts, for any store, clock and external responses — is rejected with
HTTP 403, because `verify_csrf_token` removed the stored value when it
verified. -/
theorem c1_state_replay_rejected (cfg : AppConfig) (s : RedisStore)
    (fs : FlaskSession) (now₁ : Nat) (st : String) (code₁ : Option String)
    (tex₁ : Option (Option String)) (lib₁ : Option IdInfo)
    (sid₁ tok₁ ra₁ ua₁ : String)
    (hstored : fs.oauth_state = some st) (hst : st ≠ "") :
    (callback cfg s fs now₁ none (some st) code₁ tex₁ lib₁ sid₁ tok₁
      ra₁ ua₁).fsession.oauth_state = none ∧
    (∀ (fs' : FlaskSession), fs'.oauth_state = none →
      ∀ (s' : RedisStore) (now : Nat) (code : Option String)
        (tex : Option (Option String)) (lib : Option IdInfo)
        (sid tok ra ua : String),
        (callback cfg s' fs' now none (some st) code tex lib sid tok
          ra ua).status = 403 ∧
        (callback cfg s' fs' now none (some st) code tex lib sid tok
          ra ua).fsession.oauth_state = none) := by
  constructor
  · exact callback_no_error_oauth_state cfg s fs now₁ (some st) code₁ tex₁
      lib₁ sid₁ tok₁ ra₁ ua₁
  · intro fs' h' s' now code tex lib sid tok ra ua
    exact callback_no_state_403 cfg s' fs' now (some st) code tex lib sid tok
      ra ua h'

/-- A pre-auth cookie session as `login()` leaves it for the C1/C9
witnesses: state "S", nonce "N", flow started at time 0. -/
def fsW : FlaskSession := login FlaskSession.clear 0 "S" "N"

theorem c1_state_replay_rejected_witness :
    fsW.oauth_state = some "S" ∧ ("S" : String) ≠ "" ∧
    ((callback cfgW RedisStore.empty fsW 0 none (some "S") (some "c")
        (some (some "jwt")) none "sid" "tok" "ip" "ua").fsession.oauth_state
          = none ∧
     (∀ (fs' : FlaskSession), fs'.oauth_state = none →
       ∀ (s' : RedisStore) (now : Nat) (code : Option String)
         (tex : Option (Option String)) (lib : Option IdInfo)
         (sid tok ra ua : String),
         (callback cfgW s' fs' now none (some "S") code tex lib sid tok
           ra ua).status = 403 ∧
         (callback cfgW s' fs' now none (some "S") code tex lib sid tok
           ra ua).fsession.oauth_state = none)) :=
  ⟨by decide, by decide,
   c1_state_replay_rejected cfgW RedisStore.empty fsW 0 "S" (some "c")
     (some (some "jwt")) none "sid" "tok" "ip" "ua" (by decide) (by decide)⟩

/-! ## C9 — callbacks later than 10 minutes are rejected -/

/-- C9: a callback whose CSRF state verifies but which arrives more than 10
minutes (600 s) after `login()` stored the flow's `oauth_timestamp` is
rejected with HTTP 403, whatever the rest of the request looks like. -/
theorem c9_callback_timeout_403 (cfg : AppConfig) (s : RedisStore)
    (fs : FlaskSession) (now t : Nat) (st : String) (code : Option String)
    (tex : Option (Option String)) (lib : Option IdInfo)
    (sid tok ra ua : String)
    (hstored : fs.oauth_state = some st) (hst : st ≠ "")
    (hts : fs.oauth_timestamp = some t) (hlate : now - t > 600) :
    (callback cfg s fs now none (some st) code tex lib sid tok ra ua).status
      = 403 := by
  show (callback_no_error cfg s fs now (some st) code tex lib sid tok
    ra ua).status = 403
  have hpass := verify_csrf_token_pass fs st hstored hst
  have hsnd := verify_csrf_token_snd fs (some st)
  unfold callback_no_error
  rcases hv : verify_csrf_token fs (some st) with ⟨b, fs1⟩
  rw [hv] at hpass hsnd
  simp only [] at hpass hsnd
  have hts1 : fs1.oauth_timestamp = some t := by
    rw [hsnd]
    exact hts
  have htimed : oauthTimedOut fs1.oauth_timestamp now = true := by
    rw [hts1]
    simp [oauthTimedOut, hlate]
  simp [hpass, htimed]

theorem c9_callback_timeout_403_witness :
    fsW.oauth_state = some "S" ∧ ("S" : String) ≠ "" ∧
    fsW.oauth_timestamp = some 0 ∧ 601 - 0 > 600 ∧
    (callback cfgW RedisStore.empty fsW 601 none (some "S") (some "c")
      (some (some "jwt")) none "sid" "tok" "ip" "ua").status = 403 :=
  ⟨by decide, by decide, by decide, by decide,
   c9_callback_timeout_403 cfgW RedisStore.empty fsW 601 0 "S" (some "c")
     (some (some "jwt")) none "sid" "tok" "ip" "ua" (by decide) (by decide)
     (by decide) (by decide)⟩

/-! ## C7 — five-per-minute window -/

/-- `check_rate_limit` on an absent (or expired) counter. -/
theorem check_rate_limit_absent (s : CounterStore) (now : Nat) (key : String)
    (lim : String) (cnt per : Nat) (hp : parse_limit lim = (cnt, per))
    (h : liveGet s.counters now ("rate_limit:" ++ key) = none) :
    check_rate_limit s now key (some lim) true =
      (decide (1 ≤ cnt),
       ⟨override s.counters ("rate_limit:" ++ key) (some (1, now + per))⟩) := by
  unfold check_rate_limit
  simp [hp, h]

/-- `check_rate_limit` on a live counter. -/
theorem check_rate_limit_present (s : CounterStore) (now : Nat) (key : String)
    (lim : String) (cnt per c e : Nat) (hp : parse_limit lim = (cnt, per))
    (h : liveGet s.counters now ("rate_limit:" ++ key) = some (c, e)) :
    check_rate_limit s now key (some lim) true =
      (decide (c + 1 ≤ cnt),
       ⟨override s.counters ("rate_limit:" ++ key) (some (c + 1, now + per))⟩) := by
  unfold check_rate_limit
  simp [hp, h]

/-- `n` consecutive `check_rate_limit` calls at one instant for one key,
collecting the verdicts. -/
def checkCalls (s : CounterStore) (now : Nat) (key : String)
    (lim : Option String) : Nat → List Bool × CounterStore
  | 0 => ([], s)
  | n + 1 =>
    let (b, s') := check_rate_limit s now key lim true
    let (bs, s'') := checkCalls s' now key lim n
    (b :: bs, s'')

/-- The counter store after a `check_rate_limit` write of count `c` under a
60-second window. -/
def rlWrite (s : CounterStore) (key : String) (now c : Nat) : CounterStore :=
  ⟨override s.counters ("rate_limit:" ++ key) (some (c, now + 60))⟩

theorem rlWrite_live (s : CounterStore) (key : String) (now c : Nat) :
    liveGet (rlWrite s key now c).counters now ("rate_limit:" ++ key) =
      some (c, now + 60) :=
  liveGet_override_live _ _ _ _ _ (by omega)

/-- One `check_rate_limit` step after a previous write of count `c` in the
same window. -/
theorem rlWrite_step (s : CounterStore) (key : String) (now c : Nat) :
    check_rate_limit (rlWrite s key now c) now key (some "5 per minute") true
      = (decide (c + 1 ≤ 5), rlWrite (rlWrite s key now c) key now (c + 1)) := by
  rw [check_rate_limit_present (rlWrite s key now c) now key _ 5 60 c
    (now + 60) (by decide) (rlWrite_live s key now c)]
  rfl

/-- C7: under the limit `"5 per minute"` and a fresh key, the first five
calls within the window are admitted, the sixth is rejected, and once the
counter's TTL has elapsed (`now + 60 ≤ now₂`) the next call is admitted
again. -/
theorem c7_rate_limit_five_per_minute (s : CounterStore) (now now₂ : Nat)
    (key : String)
    (h0 : liveGet s.counters now ("rate_limit:" ++ key) = none)
    (hwin : now + 60 ≤ now₂) :
    (checkCalls s now key (some "5 per minute") 6).1 =
      [true, true, true, true, true, false] ∧
    (check_rate_limit (checkCalls s now key (some "5 per minute") 6).2 now₂
      key (some "5 per minute") true).1 = true := by
  have hp : parse_limit "5 per minute" = (5, 60) := by decide
  have h1 : check_rate_limit s now key (some "5 per minute") true =
      (true, rlWrite s key now 1) := by
    rw [check_rate_limit_absent s now key _ 5 60 hp h0]
    rfl
  have hrun : (checkCalls s now key (some "5 per minute") 6) =
      ([true, true, true, true, true, false],
       rlWrite (rlWrite (rlWrite (rlWrite (rlWrite (rlWrite s key now 1)
         key now 2) key now 3) key now 4) key now 5) key now 6) := by
    simp [checkCalls, h1, rlWrite_step]
  rw [hrun]
  refine ⟨rfl, ?_⟩
  have ldead : liveGet (rlWrite (rlWrite (rlWrite (rlWrite (rlWrite
      (rlWrite s key now 1) key now 2) key now 3) key now 4) key now 5)
      key now 6).counters now₂ ("rate_limit:" ++ key) = none :=
    liveGet_override_dead _ _ _ _ _ hwin
  rw [check_rate_limit_absent _ now₂ key _ 5 60 hp ldead]
  rfl

theorem c7_rate_limit_five_per_minute_witness :
    liveGet CounterStore.empty.counters 0 ("rate_limit:" ++ "k") = none ∧
    0 + 60 ≤ 60 ∧
    ((checkCalls CounterStore.empty 0 "k" (some "5 per minute") 6).1 =
       [true, true, true, true, true, false] ∧
     (check_rate_limit (checkCalls CounterStore.empty 0 "k"
        (some "5 per minute") 6).2 60 "k" (some "5 per minute") true).1
       = true) :=
  ⟨rfl, by decide,
   c7_rate_limit_five_per_minute CounterStore.empty 0 60 "k" rfl (by decide)⟩

/-! ## C2 — session/index invariant -/

theorem liveGet_eq_some {α : Type} (m : String → Option (α × Nat)) (now : Nat)
    (k : String) (v : α) (e : Nat) (h : liveGet m now k = some (v, e)) :
    m k = some (v, e) ∧ now < e := by
  unfold liveGet at h
  cases hm : m k with
  | none => rw [hm] at h; exact absurd h (by simp)
  | some p =>
    rcases p with ⟨v2, e2⟩
    rw [hm] at h
    simp only [] at h
    by_cases he : now < e2
    · rw [if_pos he] at h
      cases h
      exact ⟨rfl, he⟩
    · rw [if_neg he] at h
      exact absurd h (by simp)

theorem liveGet_fun_congr {α : Type} (m m2 : String → Option (α × Nat))
    (now : Nat) (k : String) (h : m k = m2 k) :
    liveGet m now k = liveGet m2 now k := by
  unfold liveGet
  rw [h]

/-- Membership in `SMEMBERS` unfolded to a live index read. -/
theorem mem_smembers_iff (s : RedisStore) (now : Nat) (email sid : String) :
    sid ∈ smembers s now email ↔
      ∃ ids e, liveGet s.userSessions now ("user_sessions:" ++ email)
        = some (ids, e) ∧ sid ∈ ids := by
  unfold smembers
  cases h : liveGet s.userSessions now ("user_sessions:" ++ email) with
  | none => simp
  | some p =>
    rcases p with ⟨ids, e⟩
    simp

/-- `create_user_session` preserves the store/index invariant when the new
session id is fresh. -/
theorem inv_create (s : RedisStore) (fs : FlaskSession) (now : Nat)
    (sid : String) (info : IdInfo) (ra ua : String)
    (hfresh : liveGet s.sessions now sid = none)
    (hinv : SessionIndexInv s now) :
    SessionIndexInv (create_user_session s fs now sid info ra ua).1 now := by
  have hL : now < now + PERMANENT_SESSION_LIFETIME := by
    simp [PERMANENT_SESSION_LIFETIME]
  intro sid2 email2
  simp only [create_user_session]
  by_cases hsid : sid2 = sid
  · subst hsid
    rw [liveGet_override_live _ _ _ _ _ hL]
    by_cases hem : email2 = info.email
    · subst hem
      rw [liveGet_override_live _ _ _ _ _ hL]
      constructor
      · intro _
        exact ⟨_, _, rfl, List.mem_insert_self _ _⟩
      · intro _
        exact ⟨_, _, rfl, rfl⟩
    · have hkey : "user_sessions:" ++ email2 ≠ "user_sessions:" ++ info.email := by
        intro h
        exact hem (string_append_left_cancel h)
      rw [liveGet_override_other _ _ _ _ _ hkey]
      constructor
      · rintro ⟨d, e, hde, hdm⟩
        cases hde
        exact absurd hdm.symm hem
      · rintro ⟨ids, e, hie, hmem⟩
        have hl := (hinv sid2 email2).mpr ⟨ids, e, hie, hmem⟩
        rcases hl with ⟨d, e2, hde, -⟩
        rw [hfresh] at hde
        exact absurd hde (by simp)
  · rw [liveGet_override_other _ _ _ _ _ hsid]
    by_cases hem : email2 = info.email
    · subst hem
      rw [liveGet_override_live _ _ _ _ _ hL]
      constructor
      · intro hl
        have hr := (hinv sid2 info.email).mp hl
        have hm := (mem_smembers_iff s now info.email sid2).mpr hr
        exact ⟨_, _, rfl, List.mem_insert_iff.mpr (Or.inr hm)⟩
      · rintro ⟨ids, e, hie, hmem⟩
        cases hie
        rcases List.mem_insert_iff.mp hmem with h1 | h2
        · exact absurd h1 hsid
        · exact (hinv sid2 info.email).mpr
            ((mem_smembers_iff s now info.email sid2).mp h2)
    · have hkey : "user_sessions:" ++ email2 ≠ "user_sessions:" ++ info.email := by
        intro h
        exact hem (string_append_left_cancel h)
      rw [liveGet_override_other _ _ _ _ _ hkey]
      exact hinv sid2 email2

/-- `get_user_session` preserves the store/index invariant: a hit only
refreshes the record's TTL and `last_activity`, a miss changes nothing in the
store. -/
theorem inv_get (s : RedisStore) (fs : FlaskSession) (now : Nat)
    (hinv : SessionIndexInv s now) :
    SessionIndexInv (get_user_session s fs now).2.1 now := by
  have hL : now < now + PERMANENT_SESSION_LIFETIME := by
    simp [PERMANENT_SESSION_LIFETIME]
  unfold get_user_session
  cases hsid : fs.session_id with
  | none => exact hinv
  | some sid =>
    simp only []
    cases hx : liveGet s.sessions now sid with
    | none => exact hinv
    | some p =>
      rcases p with ⟨data, e⟩
      simp only []
      intro sid2 email2
      by_cases hs2 : sid2 = sid
      · subst hs2
        rw [liveGet_override_live _ _ _ _ _ hL]
        constructor
        · rintro ⟨d, e2, hde, hdm⟩
          cases hde
          exact (hinv sid2 email2).mp ⟨data, e, hx, hdm⟩
        · intro hr
          obtain ⟨d, e2, hde, hdm⟩ := (hinv sid2 email2).mpr hr
          rw [hx] at hde
          cases hde
          exact ⟨_, _, rfl, hdm⟩
      · rw [liveGet_override_other _ _ _ _ _ hs2]
        exact hinv sid2 email2

/-- `logout` preserves the store/index invariant when the cookie's
`user_email` matches the session record it deletes. -/
theorem inv_logout (s : RedisStore) (now : Nat) (sid email : String)
    (hmatch : ∀ d e, liveGet s.sessions now sid = some (d, e) → d.email = email)
    (hinv : SessionIndexInv s now) :
    SessionIndexInv (logout s { FlaskSession.clear with
      session_id := some sid, user_email := some email } now).1 now := by
  unfold logout
  simp only []
  cases hidx : liveGet s.userSessions now ("user_sessions:" ++ email) with
  | none =>
    simp only []
    intro sid2 email2
    by_cases hs2 : sid2 = sid
    · rw [hs2, liveGet_override_erase]
      constructor
      · rintro ⟨d, e, hde, -⟩
        exact absurd hde (by simp)
      · rintro ⟨ids, e, hie, hmem⟩
        obtain ⟨d, e2, hde, hdm⟩ := (hinv sid email2).mpr ⟨ids, e, hie, hmem⟩
        have he : email2 = email := by rw [← hdm, hmatch d e2 hde]
        rw [he, hidx] at hie
        exact absurd hie (by simp)
    · rw [liveGet_override_other _ _ _ _ _ hs2]
      exact hinv sid2 email2
  | some p =>
    rcases p with ⟨ids, e⟩
    simp only []
    have hlt := (liveGet_eq_some _ _ _ _ _ hidx).2
    intro sid2 email2
    by_cases hs2 : sid2 = sid
    · rw [hs2, liveGet_override_erase]
      constructor
      · rintro ⟨d, e2, hde, -⟩
        exact absurd hde (by simp)
      · rintro ⟨ids2, e2, hie, hmem⟩
        by_cases hem : email2 = email
        · rw [hem, liveGet_override_live _ _ _ _ _ hlt] at hie
          cases hie
          have hne := (List.mem_filter.mp hmem).2
          simp at hne
        · have hkey : "user_sessions:" ++ email2 ≠ "user_sessions:" ++ email :=
            fun h => hem (string_append_left_cancel h)
          rw [liveGet_override_other _ _ _ _ _ hkey] at hie
          obtain ⟨d, e3, hde, hdm⟩ := (hinv sid email2).mpr ⟨ids2, e2, hie, hmem⟩
          exact (hem (by rw [← hdm, hmatch d e3 hde])).elim
    · rw [liveGet_override_other _ _ _ _ _ hs2]
      by_cases hem : email2 = email
      · rw [hem, liveGet_override_live _ _ _ _ _ hlt]
        constructor
        · intro hl
          obtain ⟨ids2, e2, hie, hmem⟩ := (hinv sid2 email).mp hl
          rw [hidx] at hie
          cases hie
          exact ⟨_, _, rfl, List.mem_filter.mpr ⟨hmem, by simp [hs2]⟩⟩
        · rintro ⟨ids2, e2, hie, hmem⟩
          cases hie
          exact (hinv sid2 email).mpr ⟨ids, e, hidx, (List.mem_filter.mp hmem).1⟩
      · have hkey : "user_sessions:" ++ email2 ≠ "user_sessions:" ++ email :=
          fun h => hem (string_append_left_cancel h)
        rw [liveGet_override_other _ _ _ _ _ hkey]
        exact hinv sid2 email2

/-- Reading a key deleted by the `logout_all` pipeline. -/
theorem liveGet_del_mem {α : Type} (m : String → Option (α × Nat))
    (L : List String) (now : Nat) (k : String) (h : k ∈ L) :
    liveGet (fun k2 => if k2 ∈ L then none else m k2) now k = none := by
  unfold liveGet
  simp [h]

/-- Reading a key the `logout_all` pipeline did not touch. -/
theorem liveGet_del_not_mem {α : Type} (m : String → Option (α × Nat))
    (L : List String) (now : Nat) (k : String) (h : k ∉ L) :
    liveGet (fun k2 => if k2 ∈ L then none else m k2) now k =
      liveGet m now k := by
  unfold liveGet
  simp [h]

/-- `logout_all` preserves the store/index invariant. -/
theorem inv_logout_all (s : RedisStore) (now : Nat) (email : String)
    (hinv : SessionIndexInv s now) :
    SessionIndexInv (logout_all s now email).1 now := by
  unfold logout_all
  simp only []
  intro sid2 email2
  by_cases hem : email2 = email
  · rw [hem, liveGet_override_erase]
    constructor
    · rintro ⟨d, e, hde, hdm⟩
      by_cases hmem : sid2 ∈ smembers s now email
      · rw [liveGet_del_mem _ _ _ _ hmem] at hde
        exact absurd hde (by simp)
      · rw [liveGet_del_not_mem _ _ _ _ hmem] at hde
        have hr := (hinv sid2 email).mp ⟨d, e, hde, hdm⟩
        exact absurd ((mem_smembers_iff s now email sid2).mpr hr) hmem
    · rintro ⟨ids, e, hie, -⟩
      exact absurd hie (by simp)
  · have hkey : "user_sessions:" ++ email2 ≠ "user_sessions:" ++ email :=
      fun h => hem (string_append_left_cancel h)
    rw [liveGet_override_other _ _ _ _ _ hkey]
    by_cases hmem : sid2 ∈ smembers s now email
    · rw [liveGet_del_mem _ _ _ _ hmem]
      constructor
      · rintro ⟨d, e, hde, -⟩
        exact absurd hde (by simp)
      · rintro ⟨ids, e, hie, hm2⟩
        obtain ⟨d, e2, hde, hdm⟩ := (hinv sid2 email2).mpr ⟨ids, e, hie, hm2⟩
        obtain ⟨ids0, e0, hie0, hm0⟩ :=
          (mem_smembers_iff s now email sid2).mp hmem
        obtain ⟨d0, e3, hde0, hdm0⟩ := (hinv sid2 email).mpr ⟨ids0, e0, hie0, hm0⟩
        rw [hde0] at hde
        cases hde
        exact (hem (by rw [← hdm, hdm0])).elim
    · rw [liveGet_del_not_mem _ _ _ _ hmem]
      exact hinv sid2 email2

/-- The invariant holds of the empty store. -/
theorem inv_empty (now : Nat) : SessionIndexInv RedisStore.empty now := by
  intro sid email
  constructor
  · rintro ⟨d, e, hde, -⟩
    exact absurd hde (by simp [RedisStore.empty, liveGet])
  · rintro ⟨ids, e, hie, -⟩
    exact absurd hie (by simp [RedisStore.empty, liveGet])

/-- Tick-free, well-formed traces of session-store operations preserve the
store/index invariant. -/
theorem inv_runOps (ops : List SessionOp) (s : RedisStore) (now : Nat)
    (hnt : noTick ops = true) (hwf : wfOps s now ops = true)
    (hinv : SessionIndexInv s now) :
    SessionIndexInv (runOps s now ops).1 (runOps s now ops).2 := by
  induction ops generalizing s now with
  | nil => exact hinv
  | cons op rest ih =>
    cases op with
    | create sid info ra ua =>
      simp only [wfOps, applyOp] at hwf
      rw [Bool.and_eq_true] at hwf
      obtain ⟨h1, h2⟩ := hwf
      simp only [noTick] at hnt
      simp only [runOps, applyOp]
      exact ih _ _ hnt h2
        (inv_create s FlaskSession.clear now sid info ra ua
          (of_decide_eq_true h1) hinv)
    | get sid =>
      simp only [wfOps, applyOp] at hwf
      rw [Bool.and_eq_true] at hwf
      obtain ⟨-, h2⟩ := hwf
      simp only [noTick] at hnt
      simp only [runOps, applyOp]
      exact ih _ _ hnt h2 (inv_get s _ now hinv)
    | logoutOp sid email =>
      simp only [wfOps, applyOp] at hwf
      rw [Bool.and_eq_true] at hwf
      obtain ⟨h1, h2⟩ := hwf
      simp only [noTick] at hnt
      simp only [runOps, applyOp]
      have hmatch : ∀ d e, liveGet s.sessions now sid = some (d, e) →
          d.email = email := by
        intro d e hde
        rw [hde] at h1
        simp only [] at h1
        exact of_decide_eq_true h1
      exact ih _ _ hnt h2 (inv_logout s now sid email hmatch hinv)
    | logoutAllOp email =>
      simp only [wfOps, applyOp] at hwf
      rw [Bool.and_eq_true] at hwf
      obtain ⟨-, h2⟩ := hwf
      simp only [noTick] at hnt
      simp only [runOps, applyOp]
      exact ih _ _ hnt h2 (inv_logout_all s now email hinv)
    | tick dt =>
      simp only [noTick] at hnt
      exact absurd hnt (by simp)

/-- C2 (amended): after every finite tick-free sequence of
`create_user_session`, `get_user_session`, `logout` and `logout_all` from the
empty store — with fresh random session ids and each `logout` carrying the
`user_email` the cookie received at creation — a session record with id `S`
for email `E` is present iff `S` is a member of the `user_sessions:E` index
set.  (With TTL-expiry steps interleaved the equivalence fails, because
`get_user_session` refreshes the session record's TTL but not the index's:
see the counterexample.) -/
theorem c2_session_index_invariant_no_expiry (ops : List SessionOp)
    (hnt : noTick ops = true) (hwf : wfOps RedisStore.empty 0 ops = true) :
    SessionIndexInv (runOps RedisStore.empty 0 ops).1
      (runOps RedisStore.empty 0 ops).2 :=
  inv_runOps ops RedisStore.empty 0 hnt hwf (inv_empty 0)

/-- Verified identity for the C2 traces. -/
def infoW : IdInfo :=
  ⟨"accounts.google.com", "cid", some "corp.example", "alice@corp.example",
   true, some "n", "sub1", "Alice", "pic"⟩

/-- A tick-free trace exercising all four session-store operations. -/
def opsW : List SessionOp :=
  [.create "s1" infoW "ip" "ua", .get "s1", .create "s2" infoW "ip" "ua",
   .logoutOp "s1" "alice@corp.example", .logoutAllOp "alice@corp.example"]

theorem c2_session_index_invariant_no_expiry_witness :
    noTick opsW = true ∧ wfOps RedisStore.empty 0 opsW = true ∧
    SessionIndexInv (runOps RedisStore.empty 0 opsW).1
      (runOps RedisStore.empty 0 opsW).2 :=
  ⟨by decide, by decide,
   c2_session_index_invariant_no_expiry opsW (by decide) (by decide)⟩

/-- The interleaved-expiry trace: create at `t = 0` (session and index both
expire at 86400), refresh the session via `get_user_session` at `t = 86000`
(session now expires at 172400, index still at 86400), then reach
`t = 87000`. -/
def opsCX : List SessionOp :=
  [.create "s1" infoW "ip" "ua", .tick 86000, .get "s1", .tick 1000]

/-- C2 counterexample: after `opsCX` the session record `s1` for
`alice@corp.example` is still live but its id is no longer in the live
`user_sessions:alice@corp.example` index (the index key has expired), so the
claimed biconditional fails on the concrete trace: `get_user_session`
refreshes the session record's TTL without refreshing the index's TTL. -/
theorem c2_session_index_invariant_counterexample :
    ¬ SessionIndexInv (runOps RedisStore.empty 0 opsCX).1
        (runOps RedisStore.empty 0 opsCX).2 := by
  intro h
  have hl : ∃ d e, liveGet (runOps RedisStore.empty 0 opsCX).1.sessions
      (runOps RedisStore.empty 0 opsCX).2 "s1" = some (d, e) ∧
      d.email = "alice@corp.example" := by
    refine ⟨⟨"sub1", "alice@corp.example", "Alice", "pic",
      some "corp.example", 0, 86000, "ip", "ua"⟩, 172400, ?_, rfl⟩
    decide
  obtain ⟨ids, e, hie, hmem⟩ := (h "s1" "alice@corp.example").mp hl
  have hnone : liveGet (runOps RedisStore.empty 0 opsCX).1.userSessions
      (runOps RedisStore.empty 0 opsCX).2
      ("user_sessions:" ++ "alice@corp.example") = none := by decide
  rw [hnone] at hie
  exact absurd hie (by simp)

end TaskPages
